import Mathlib

/-!
Verification of the change-detection and per-user scheduling core of the
tg_auto_doctor repository, as a shallow embedding in Lean 4.

Modelling conventions, used throughout:
* Python dictionaries that the source builds with a fixed set of keys are
  structures; a key the source reads with `.get(k)` is a plain field (missing
  JSON keys are represented by their Python default values, which no claim
  distinguishes from present ones).
* Python `int` is `Int`; timestamps are `Int` minutes on one global clock;
  calendar dates obtained from `datetime.strptime(s, "%Y-%m-%d").date()` are
  represented through an abstract parse function `String → Option Int`
  (days on a linear scale, so that adding `timedelta(days = k)` is `+ k`);
  `none` models a string on which `strptime` raises.  The same string always
  parses to the same result, which models the determinism of `strptime`.
* `datetime.now()` during one checking pass is a single value `today` (for
  dates) or `now` (for timestamps); the claims under study do not concern a
  clock that moves mid-pass.
* The SQLite tables are: an append-only list for `schedule_state` (insertion
  order models `checked_at` order, as in the spec "most recent row"), an
  append-only list for `notifications`, and a key-indexed map for the upsert
  table `doctors`.  Async effects become explicit state passing.
-/

/-! ## Upstream document shape (`api/parser.py` input, spec section 6) -/

/-- A doctor's `closestEntry` marker; `none` stands for a missing or falsy
(empty) value. -/
structure ClosestEntry where
  beginTime : String
deriving DecidableEq

/-- One element of a doctor's `schedule` array. -/
structure ScheduleItem where
  date : String
  time_from : String
  time_to : String
  count_tickets : Int
  docBusyTypeName : String
  docBusyTypeCode : String
deriving DecidableEq

/-- One element of an lpu item's `doctors` array. -/
structure DoctorData where
  id : String
  displayName : String
  person_id : String
  position : String
  positionCode : String
  room : String
  separation : String
  type : Int
  type_name : String
  rating : String
  schedule : List ScheduleItem
  closestEntry : Option ClosestEntry
deriving DecidableEq

/-- The `lpu` object of an item. -/
structure Lpu where
  name : String
  address : String
  phone : String
deriving DecidableEq

/-- One element of the response's `items` array. -/
structure LpuItem where
  lpu : Lpu
  doctors : List DoctorData
deriving DecidableEq

/-- A parsed upstream response; `items = none` models a response without an
`items` key. -/
structure ApiResponse where
  items : Option (List LpuItem)
deriving DecidableEq

/-! ## Candidate records (`AppointmentParser` output) -/

/-- The dictionary built by `AppointmentParser.parse_doctor_data`. -/
structure DoctorInfo where
  id : String
  department_id : Int
  display_name : String
  person_id : String
  position : String
  position_code : String
  room : String
  lpu_name : String
  lpu_address : String
  separation : String
  type : Int
  type_name : String
  rating : String
  phone : String
deriving DecidableEq

/-- The dictionary built by `AppointmentParser.parse_schedule_item`. -/
structure ParsedSchedule where
  date : String
  time_from : String
  time_to : String
  count_tickets : Int
  doc_busy_type : String
  doc_busy_type_code : String
deriving DecidableEq

/-- A full appointment candidate: the merge `{**doctor_info, **parsed_schedule,
closest_entry_time}` that `extract_available_appointments` emits. -/
structure Appointment where
  id : String
  department_id : Int
  display_name : String
  person_id : String
  position : String
  position_code : String
  room : String
  lpu_name : String
  lpu_address : String
  separation : String
  type : Int
  type_name : String
  rating : String
  phone : String
  date : String
  time_from : String
  time_to : String
  count_tickets : Int
  doc_busy_type : String
  doc_busy_type_code : String
  closest_entry_time : String
deriving DecidableEq

/-- Modelled from the spec: the doctor allow-list and position deny-list the
parser reads from `Config.ALLOWED_DOCTORS` and `Config.EXCLUDED_POSITIONS`
(`src/config.py` does not declare these two attributes; spec section 4.1
describes them as a configured allow-list of display names taking precedence
over a configured deny-list of positions). -/
structure FilterConfig where
  ALLOWED_DOCTORS : List String
  EXCLUDED_POSITIONS : List String
deriving DecidableEq

/-- `AppointmentParser.parse_doctor_data`. -/
def parse_doctor_data (doctor : DoctorData) (lpu : Lpu) (department_id : Int) :
    DoctorInfo :=
  { id := doctor.id
    department_id := department_id
    display_name := doctor.displayName
    person_id := doctor.person_id
    position := doctor.position
    position_code := doctor.positionCode
    room := doctor.room
    lpu_name := lpu.name
    lpu_address := lpu.address
    separation := doctor.separation
    type := doctor.type
    type_name := doctor.type_name
    rating := doctor.rating
    phone := lpu.phone }

/-- Python's `str.split(sep)` for a one-character separator, on the string's
character list: splitting at every occurrence, the result is always
non-empty.  Structural recursion, so closed instances compute inside the
kernel. -/
def pySplitChar (c : Char) : List Char → List (List Char)
  | [] => [[]]
  | x :: xs =>
      let r := pySplitChar c xs
      if x = c then [] :: r
      else
        match r with
        | [] => [[x]]
        | y :: ys => (x :: y) :: ys

/-- Python's `s.split(sep)` for a one-character separator. -/
def pySplit (sep : Char) (s : String) : List String :=
  (pySplitChar sep s.data).map String.mk

/-- Python's `c in s` for a one-character needle. -/
def pyContains (s : String) (c : Char) : Bool := s.data.contains c

/-- `AppointmentParser.parse_schedule_item`; `date.split('T')[0]` keeps the
part before the first `T`. -/
def parse_schedule_item (s : ScheduleItem) : ParsedSchedule :=
  { date := (pySplit 'T' s.date).headD ""
    time_from := s.time_from
    time_to := s.time_to
    count_tickets := s.count_tickets
    doc_busy_type := s.docBusyTypeName
    doc_busy_type_code := s.docBusyTypeCode }

/-- `AppointmentParser.parse_closest_entry`. -/
def parse_closest_entry : Option ClosestEntry → String
  | some ce => ce.beginTime
  | none => ""

/-- The candidate `{**doctor_info, **parsed_schedule, 'closest_entry_time'}`. -/
def mkAppointment (info : DoctorInfo) (ps : ParsedSchedule)
    (closest_entry_time : String) : Appointment :=
  { id := info.id
    department_id := info.department_id
    display_name := info.display_name
    person_id := info.person_id
    position := info.position
    position_code := info.position_code
    room := info.room
    lpu_name := info.lpu_name
    lpu_address := info.lpu_address
    separation := info.separation
    type := info.type
    type_name := info.type_name
    rating := info.rating
    phone := info.phone
    date := ps.date
    time_from := ps.time_from
    time_to := ps.time_to
    count_tickets := ps.count_tickets
    doc_busy_type := ps.doc_busy_type
    doc_busy_type_code := ps.doc_busy_type_code
    closest_entry_time := closest_entry_time }

/-- The busy-type label of the synthetic closest-slot candidate
(the source's string at `parser.py:152`). -/
def closestBusyTypeLabel : String := "Ближайшая доступная запись"

/-- The synthetic candidate appended for a closest-slot marker
(`parser.py:146-156`): `date` is the part of the timestamp before `T`,
`time_from` the time-of-day parsed from it, `count_tickets = 0`. -/
def closestAppointment (info : DoctorInfo) (closest_time : String) :
    Appointment :=
  { id := info.id
    department_id := info.department_id
    display_name := info.display_name
    person_id := info.person_id
    position := info.position
    position_code := info.position_code
    room := info.room
    lpu_name := info.lpu_name
    lpu_address := info.lpu_address
    separation := info.separation
    type := info.type
    type_name := info.type_name
    rating := info.rating
    phone := info.phone
    date := (pySplit 'T' closest_time).headD ""
    time_from :=
      if pyContains closest_time 'T' then
        (pySplit '+' ((pySplit 'T' closest_time).getD 1 "")).headD ""
      else ""
    time_to := ""
    count_tickets := 0
    doc_busy_type := closestBusyTypeLabel
    doc_busy_type_code := "closest"
    closest_entry_time := closest_time }

/-- The schedule loop of `extract_available_appointments` for one doctor
(`parser.py:120-130`): emit a candidate for every schedule day with
`count_tickets > 0`. -/
def emit_schedule (info : DoctorInfo) (doctor : DoctorData)
    (acc : List Appointment) : List Appointment :=
  doctor.schedule.foldl
    (fun a s =>
      let ps := parse_schedule_item s
      if ps.count_tickets > 0 then
        a ++ [mkAppointment info ps (parse_closest_entry doctor.closestEntry)]
      else a)
    acc

/-- The per-doctor emission of `extract_available_appointments`
(`parser.py:116-156`): the schedule loop, then the closest-slot branch that
appends a synthetic candidate when none with the same `(id, date)` was emitted
yet. -/
def emit_doctor (info : DoctorInfo) (doctor : DoctorData)
    (acc : List Appointment) : List Appointment :=
  let acc1 := emit_schedule info doctor acc
  match doctor.closestEntry with
  | none => acc1
  | some _ =>
      let closest_time := parse_closest_entry doctor.closestEntry
      if closest_time ≠ "" then
        let closest_date := (pySplit 'T' closest_time).headD ""
        if acc1.any (fun apt => apt.date == closest_date && apt.id == info.id)
        then acc1
        else acc1 ++ [closestAppointment info closest_time]
      else acc1

/-- The doctor filter of `extract_available_appointments` (`parser.py:104-114`):
a non-empty allow-list of display names takes precedence; otherwise positions
in the deny-list are dropped. -/
def passes_filter (cfg : FilterConfig) (info : DoctorInfo) : Bool :=
  if !cfg.ALLOWED_DOCTORS.isEmpty then
    cfg.ALLOWED_DOCTORS.contains info.display_name
  else
    !(cfg.EXCLUDED_POSITIONS.contains info.position)

/-- One doctor of one lpu item in `extract_available_appointments`. -/
def process_doctor (cfg : FilterConfig) (lpu : Lpu) (department_id : Int)
    (acc : List Appointment) (doctor : DoctorData) : List Appointment :=
  let info := parse_doctor_data doctor lpu department_id
  if passes_filter cfg info then emit_doctor info doctor acc else acc

/-- `AppointmentParser.extract_available_appointments`. -/
def extract_available_appointments (cfg : FilterConfig)
    (api_response : ApiResponse) (department_id : Int) : List Appointment :=
  match api_response.items with
  | none => []
  | some items =>
      items.foldl
        (fun acc item =>
          item.doctors.foldl (process_doctor cfg item.lpu department_id) acc)
        []

/-! ## Database model (`database/db.py`) -/

/-- A row of the `doctors` table (the columns `save_doctor` writes). -/
structure DoctorRow where
  id : String
  department_id : Int
  display_name : String
  person_id : String
  position : String
  position_code : String
  room : String
  lpu_name : String
  lpu_address : String
  separation : String
  type : Int
  type_name : String
deriving DecidableEq

/-- A row of the `schedule_state` table (the columns `save_schedule_state`
writes; `checked_at` is the row's position in the list). -/
structure ScheduleStateRow where
  doctor_id : String
  date : String
  count_tickets : Int
  time_from : String
  time_to : String
  doc_busy_type : String
  closest_entry_time : String
deriving DecidableEq

/-- A row of the `notifications` table; `sent_at` is a timestamp in minutes.
The stored `message_text` belongs to the out-of-scope formatting collaborator
and is not modelled. -/
structure NotificationRow where
  user_id : Int
  doctor_id : String
  date : String
  notification_type : String
  sent_at : Int
deriving DecidableEq

/-- A row of the `users` table (the columns the scheduling core reads). -/
structure UserRow where
  user_id : Int
  is_active : Bool
  is_notifications_enabled : Bool
  patient_number : Option String
  patient_birthday : Option String
  check_interval_minutes : Int
  filter_period_days : Int
  last_check_time : Option Int
deriving DecidableEq

/-- The database state the core touches. -/
structure Db where
  doctors : String → Option DoctorRow
  schedule_state : List ScheduleStateRow
  notifications : List NotificationRow

/-- The `doctors` row built from a candidate by `Database.save_doctor`. -/
def doctorRowOf (apt : Appointment) : DoctorRow :=
  { id := apt.id
    department_id := apt.department_id
    display_name := apt.display_name
    person_id := apt.person_id
    position := apt.position
    position_code := apt.position_code
    room := apt.room
    lpu_name := apt.lpu_name
    lpu_address := apt.lpu_address
    separation := apt.separation
    type := apt.type
    type_name := apt.type_name }

/-- `Database.save_doctor`: insert, or on conflict update `display_name` and
`room` only. -/
def save_doctor (db : Db) (apt : Appointment) : Db :=
  { db with
    doctors := fun k =>
      if k = apt.id then
        some (match db.doctors apt.id with
          | none => doctorRowOf apt
          | some old =>
              { old with display_name := apt.display_name, room := apt.room })
      else db.doctors k }

/-- `Database.get_last_schedule_state`: the most recent row for
`(doctor_id, date)` (`ORDER BY checked_at DESC LIMIT 1`; insertion order
models `checked_at` order). -/
def get_last_schedule_state (db : Db) (doctor_id date : String) :
    Option ScheduleStateRow :=
  (db.schedule_state.filter
    (fun r => r.doctor_id == doctor_id && r.date == date)).getLast?

/-- `Database.save_schedule_state`: append one row. -/
def save_schedule_state (db : Db) (row : ScheduleStateRow) : Db :=
  { db with schedule_state := db.schedule_state ++ [row] }

/-- `Database.add_notification`: append one row with `sent_at = now`. -/
def add_notification (db : Db) (now user_id : Int)
    (doctor_id date notification_type : String) : Db :=
  { db with
    notifications := db.notifications ++
      [{ user_id := user_id, doctor_id := doctor_id, date := date,
         notification_type := notification_type, sent_at := now }] }

/-- `Database.was_notified`: a matching notification strictly newer than
`now - hours` exists (`sent_at > datetime('now', '-N hours')`). -/
def was_notified (db : Db) (now user_id : Int)
    (doctor_id date notification_type : String) (hours : Int) : Bool :=
  db.notifications.any fun n =>
    n.user_id == user_id && n.doctor_id == doctor_id && n.date == date &&
    n.notification_type == notification_type &&
    decide (n.sent_at > now - hours * 60)

/-- Whether a user is due per `Database.get_users_to_check`'s WHERE clause:
active, notifications enabled, both credentials non-NULL, and
`last_check_time` NULL or `last_check_time + check_interval_minutes <= now`. -/
def dueUser (now : Int) (u : UserRow) : Bool :=
  u.is_active && u.is_notifications_enabled &&
  u.patient_number.isSome && u.patient_birthday.isSome &&
  (match u.last_check_time with
   | none => true
   | some t => decide (t + u.check_interval_minutes ≤ now))

/-- `Database.get_users_to_check`. -/
def get_users_to_check (now : Int) (users : List UserRow) : List UserRow :=
  users.filter (dueUser now)

/-- `Database.update_last_check_time`: set `last_check_time = CURRENT_TIMESTAMP`
for the given user id. -/
def update_last_check_time (users : List UserRow) (uid now : Int) :
    List UserRow :=
  users.map fun u =>
    if u.user_id == uid then { u with last_check_time := some now } else u

/-! ## Change detection (`monitor/tracker.py`) -/

/-- The `schedule_state` row saved for a candidate by
`AppointmentTracker._save_user_appointment_state`. -/
def scheduleRowOf (apt : Appointment) : ScheduleStateRow :=
  { doctor_id := apt.id
    date := apt.date
    count_tickets := apt.count_tickets
    time_from := apt.time_from
    time_to := apt.time_to
    doc_busy_type := apt.doc_busy_type
    closest_entry_time := apt.closest_entry_time }

/-- `AppointmentTracker._save_user_appointment_state`: save the doctor record,
then append the schedule-state row. -/
def save_user_appointment_state (db : Db) (apt : Appointment) : Db :=
  save_schedule_state (save_doctor db apt) (scheduleRowOf apt)

/-- `AppointmentTracker._is_really_new_appointment`, the per-user change
policy.  `parse_date` models `datetime.strptime(-, "%Y-%m-%d")`; its `none`
case is the `except: pass` fall-through (`return current_tickets > 0`).  The
`user_id` argument of the source only feeds logging and is omitted. -/
def is_really_new_appointment (parse_date : String → Option Int) (today : Int)
    (db : Db) (apt : Appointment) : Bool :=
  match get_last_schedule_state db apt.id apt.date with
  | none =>
      (match parse_date apt.date with
       | some apt_date =>
           if apt_date > today + 1 ∧ apt.count_tickets > 0 then false
           else if apt_date ≤ today + 1 ∧ apt.count_tickets > 0 then true
           else decide (apt.count_tickets > 0)
       | none => decide (apt.count_tickets > 0))
  | some last_state =>
      if apt.count_tickets > last_state.count_tickets then true
      else if apt.count_tickets > 0 ∧ last_state.count_tickets = 0 then true
      else false

/-- The accumulating state of `AppointmentTracker.check_user_appointments`:
the `new_appointments` list and the database. -/
structure CheckState where
  new_appointments : List Appointment
  db : Db

/-- The per-candidate body of `check_user_appointments` (`tracker.py:192-213`):
drop the candidate when its date does not parse (`except: continue`) or lies
beyond `max_date`; otherwise classify it and unconditionally persist its
state. -/
def processUserAppointment (parse_date : String → Option Int)
    (today max_date : Int) (st : CheckState) (apt : Appointment) : CheckState :=
  match parse_date apt.date with
  | none => st
  | some apt_date =>
      if apt_date > max_date then st
      else
        { new_appointments :=
            st.new_appointments ++
              (if is_really_new_appointment parse_date today st.db apt
               then [apt] else [])
          db := save_user_appointment_state st.db apt }

/-- One department of the loop in `check_user_appointments`
(`tracker.py:182-213`): a `None` response is skipped, otherwise every
extracted candidate is processed in order. -/
def processDepartment (cfg : FilterConfig) (parse_date : String → Option Int)
    (today max_date : Int) (st : CheckState) (dept : Int × Option ApiResponse) :
    CheckState :=
  match dept.2 with
  | none => st
  | some resp =>
      (extract_available_appointments cfg resp dept.1).foldl
        (processUserAppointment parse_date today max_date) st

/-- `AppointmentTracker.check_user_appointments`: `max_date` is
`today + filter_period_days`; the `user_id` argument only feeds logging and
the (user-independent) state lookups and is omitted. -/
def check_user_appointments (cfg : FilterConfig)
    (parse_date : String → Option Int) (today : Int) (db : Db)
    (filter_period_days : Int) (all_data : List (Int × Option ApiResponse)) :
    CheckState :=
  all_data.foldl
    (processDepartment cfg parse_date today (today + filter_period_days))
    { new_appointments := [], db := db }

/-! ## Per-user scheduler (`monitor/user_scheduler.py`) -/

/-- One pass over the due users in the body of `UserScheduler._check_loop`:
the due list is read once, then for each due user the check callback runs and,
only when it completes without raising, `update_last_check_time` runs (the
call stands inside the per-user `try`; an exception jumps to the `except`
and skips it).  `cbOk u` tells whether the callback for user id `u` completes
without an exception. -/
def check_loop_tick (cbOk : Int → Bool) (now : Int) (users : List UserRow) :
    List UserRow :=
  (get_users_to_check now users).foldl
    (fun us u =>
      if cbOk u.user_id then update_last_check_time us u.user_id now else us)
    users

/-! ## Notification gate (`main.py: check_user_appointments_callback`) -/

/-- The per-appointment body of the dispatch loop in
`DoctorNotificationBot.check_user_appointments_callback` (`main.py:102-139`):
skip when `was_notified` within 24 hours; otherwise send, and only on a
successful send record the notification.  `send_ok apt` tells whether
`bot.send_message` (or anything before it in the per-appointment `try`)
completes without an exception; on failure the `except` skips
`add_notification`.  The second component accumulates the dispatched
messages. -/
def notify_appointment (send_ok : Appointment → Bool) (now user_id : Int)
    (st : Db × List Appointment) (apt : Appointment) : Db × List Appointment :=
  if was_notified st.1 now user_id apt.id apt.date "new_appointment" 24 then st
  else if send_ok apt then
    (add_notification st.1 now user_id apt.id apt.date "new_appointment",
     st.2 ++ [apt])
  else st

/-- The whole dispatch loop over the new appointments of one check. -/
def notify_new_appointments (send_ok : Appointment → Bool) (now user_id : Int)
    (db : Db) (new_appointments : List Appointment) : Db × List Appointment :=
  new_appointments.foldl (notify_appointment send_ok now user_id) (db, [])

/-! ## Helper definitions for the proofs -/

/-- Whether a candidate passes the date pre-filter of
`check_user_appointments`: its date parses and lies within `max_date`. -/
def survivesFilter (parse_date : String → Option Int) (max_date : Int)
    (apt : Appointment) : Bool :=
  match parse_date apt.date with
  | none => false
  | some d => decide (d ≤ max_date)

/-- The body of `check_user_appointments` past the date pre-filter: classify
and unconditionally persist. -/
def processCore (parse_date : String → Option Int) (today : Int)
    (st : CheckState) (apt : Appointment) : CheckState :=
  { new_appointments :=
      st.new_appointments ++
        (if is_really_new_appointment parse_date today st.db apt
         then [apt] else [])
    db := save_user_appointment_state st.db apt }

/-- All candidates one polling pass extracts, in processing order. -/
def all_candidates (cfg : FilterConfig) :
    List (Int × Option ApiResponse) → List Appointment
  | [] => []
  | dept :: rest =>
      (match dept.2 with
       | none => []
       | some resp => extract_available_appointments cfg resp dept.1) ++
      all_candidates cfg rest

/-- The stored last state for a candidate's key agrees with the candidate's
ticket count. -/
def KeyInvFor (db : Db) (c : Appointment) : Prop :=
  ∃ row, get_last_schedule_state db c.id c.date = some row ∧
    row.count_tickets = c.count_tickets

/-- The per-user effect of one scheduler tick on one stored user row, given
the due list `ds` that the tick read at its start. -/
def applyDueUpdates (cbOk : Int → Bool) (now : Int) (ds : List UserRow)
    (w : UserRow) : UserRow :=
  if ds.any (fun d => cbOk d.user_id && w.user_id == d.user_id) then
    { w with last_check_time := some now }
  else w

/-! ## Concrete inputs for witnesses and counterexamples -/

/-- An empty database. -/
def emptyDb : Db :=
  { doctors := fun _ => none, schedule_state := [], notifications := [] }

/-- A concrete date parser for closed instances: a finite table of day
numbers (structural, so closed instances compute inside the kernel). -/
def tableParseDate : String → Option Int := fun s =>
  if s = "4" then some 4
  else if s = "5" then some 5
  else if s = "6" then some 6
  else if s = "9" then some 9
  else none

/-- An empty allow-list and deny-list. -/
def emptyFilterConfig : FilterConfig :=
  { ALLOWED_DOCTORS := [], EXCLUDED_POSITIONS := [] }

/-- A user with complete credentials last checked at time 0. -/
def schedUser : UserRow :=
  { user_id := 1, is_active := true, is_notifications_enabled := true,
    patient_number := some "123", patient_birthday := some "1990-01-01",
    check_interval_minutes := 5, filter_period_days := 7,
    last_check_time := some 0 }

/-- A user with interval 5 last checked 6 minutes before time 1000. -/
def userChecked6Ago : UserRow :=
  { user_id := 2, is_active := true, is_notifications_enabled := true,
    patient_number := some "123", patient_birthday := some "1990-01-01",
    check_interval_minutes := 5, filter_period_days := 7,
    last_check_time := some 994 }

/-- A user with interval 5 last checked 3 minutes before time 1000. -/
def userChecked3Ago : UserRow :=
  { user_id := 3, is_active := true, is_notifications_enabled := true,
    patient_number := some "123", patient_birthday := some "1990-01-01",
    check_interval_minutes := 5, filter_period_days := 7,
    last_check_time := some 997 }

/-- A schedule day (day 5) with 3 tickets. -/
def dayFiveThreeTickets : ScheduleItem :=
  { date := "5", time_from := "08:00", time_to := "12:00",
    count_tickets := 3, docBusyTypeName := "visit", docBusyTypeCode := "v" }

/-- The same schedule day listed again with 5 tickets. -/
def dayFiveFiveTickets : ScheduleItem :=
  { date := "5", time_from := "13:00", time_to := "18:00",
    count_tickets := 5, docBusyTypeName := "visit", docBusyTypeCode := "v" }

/-- A doctor whose upstream schedule lists the same day twice with different
ticket counts. -/
def dupDoctor : DoctorData :=
  { id := "D1", displayName := "Doc A", person_id := "p1",
    position := "therapist", positionCode := "t", room := "101",
    separation := "", type := 0, type_name := "", rating := "",
    schedule := [dayFiveThreeTickets, dayFiveFiveTickets],
    closestEntry := none }

/-- An upstream document holding `dupDoctor`. -/
def dupResponse : ApiResponse :=
  { items := some
      [{ lpu := { name := "LPU", address := "Addr", phone := "Phone" },
         doctors := [dupDoctor] }] }

/-- One department returning `dupResponse`. -/
def dupAllData : List (Int × Option ApiResponse) := [(52, some dupResponse)]

/-- The first polling pass over `dupAllData` (today = 4, period 30). -/
def dupFirstRun : CheckState :=
  check_user_appointments emptyFilterConfig tableParseDate 4 emptyDb 30 dupAllData

/-- The second, identical polling pass, started from the first pass's
database. -/
def dupSecondRun : CheckState :=
  check_user_appointments emptyFilterConfig tableParseDate 4 dupFirstRun.db 30
    dupAllData

/-- A doctor listing day 5 once (3 tickets). -/
def okDoctor : DoctorData :=
  { id := "D1", displayName := "Doc A", person_id := "p1",
    position := "therapist", positionCode := "t", room := "101",
    separation := "", type := 0, type_name := "", rating := "",
    schedule := [dayFiveThreeTickets], closestEntry := none }

/-- An upstream document holding `okDoctor`. -/
def okResponse : ApiResponse :=
  { items := some
      [{ lpu := { name := "LPU", address := "Addr", phone := "Phone" },
         doctors := [okDoctor] }] }

/-- One department returning the duplicate-free document. -/
def okAllData : List (Int × Option ApiResponse) := [(52, some okResponse)]

/-- The first polling pass over `okAllData`. -/
def okFirstRun : CheckState :=
  check_user_appointments emptyFilterConfig tableParseDate 4 emptyDb 30 okAllData

/-- A concrete doctor-info record. -/
def infoW : DoctorInfo :=
  { id := "D1", department_id := 52, display_name := "Doc A",
    person_id := "p1", position := "therapist", position_code := "t",
    room := "101", lpu_name := "LPU", lpu_address := "Addr", separation := "",
    type := 0, type_name := "", rating := "", phone := "Phone" }

/-- A concrete candidate: day 5, 2 tickets. -/
def aptW : Appointment :=
  mkAppointment infoW
    { date := "5", time_from := "08:00", time_to := "12:00",
      count_tickets := 2, doc_busy_type := "visit", doc_busy_type_code := "v" }
    "5T08:00"

/-- A database already holding `aptW`'s state row. -/
def dbPrior : Db := save_schedule_state emptyDb (scheduleRowOf aptW)

/-- The same candidate observed again with 3 tickets. -/
def aptMore : Appointment := { aptW with count_tickets := 3 }

/-- A closest-slot marker. -/
def ceW : ClosestEntry := { beginTime := "9T09:30+03:00" }

/-- A doctor with an empty day schedule and the closest-slot marker `ceW`. -/
def doctorCE : DoctorData :=
  { id := "D2", displayName := "Doc B", person_id := "", position := "",
    positionCode := "", room := "", separation := "", type := 0,
    type_name := "", rating := "", schedule := [], closestEntry := some ceW }

/-- A concrete facility record. -/
def lpuW : Lpu := { name := "LPU", address := "Addr", phone := "Phone" }

/-- The doctor-info record of `doctorCE`. -/
def infoCE : DoctorInfo := parse_doctor_data doctorCE lpuW 52


/-! ## Claim C2 -/

/-- Claim C2: when no prior `ScheduleState` row exists for the candidate's
`(doctor_id, date)` and its date parses, the per-user policy returns not-new
for a date more than one day after today with positive tickets, new for a
date at most one day after today with positive tickets, and not-new for zero
tickets. -/
theorem first_sight_policy_cases (parse_date : String → Option Int)
    (today : Int) (db : Db) (apt : Appointment) (d : Int)
    (h0 : get_last_schedule_state db apt.id apt.date = none)
    (h1 : parse_date apt.date = some d) :
    (today + 1 < d → 0 < apt.count_tickets →
      is_really_new_appointment parse_date today db apt = false) ∧
    (d ≤ today + 1 → 0 < apt.count_tickets →
      is_really_new_appointment parse_date today db apt = true) ∧
    (apt.count_tickets = 0 →
      is_really_new_appointment parse_date today db apt = false) := by
  simp only [is_really_new_appointment, h0, h1]
  refine ⟨fun hd hc => ?_, fun hd hc => ?_, fun hc => ?_⟩
  · rw [if_pos ⟨hd, hc⟩]
  · rw [if_neg fun h => absurd h.1 (not_lt.mpr hd), if_pos ⟨hd, hc⟩]
  · rw [if_neg fun h => absurd h.2 (by omega),
      if_neg fun h => absurd h.2 (by omega)]
    simp [hc]

/-- Witness for C2: a first-sight candidate for day 5 with 2 tickets is new
when today is day 4. -/
theorem first_sight_policy_cases_witness :
    is_really_new_appointment tableParseDate 4 emptyDb aptW = true :=
  (first_sight_policy_cases tableParseDate 4 emptyDb aptW 5 rfl rfl).2.1
    (by norm_num) (show (0 : Int) < 2 by norm_num)

/-! ## Claim C3 -/

/-- Claim C3: when a prior `ScheduleState` row exists for the candidate's
`(doctor_id, date)`, the per-user policy returns new exactly when the ticket
count strictly increased (which subsumes zero-to-positive); and the verdict
depends only on `(id, date, count_tickets)`, so a
closest-slot-timestamp-only change leaves it unchanged. -/
theorem prior_state_policy_iff_ticket_increase
    (parse_date : String → Option Int) (today : Int) (db : Db)
    (apt : Appointment) (row : ScheduleStateRow)
    (h : get_last_schedule_state db apt.id apt.date = some row) :
    (is_really_new_appointment parse_date today db apt = true ↔
      row.count_tickets < apt.count_tickets) ∧
    (∀ apt2 : Appointment, apt2.id = apt.id → apt2.date = apt.date →
      apt2.count_tickets = apt.count_tickets →
      is_really_new_appointment parse_date today db apt2 =
        is_really_new_appointment parse_date today db apt) := by
  constructor
  · simp only [is_really_new_appointment, h]
    split_ifs with h1 h2 <;> simp <;> omega
  · intro apt2 hid hdate hcnt
    simp only [is_really_new_appointment, hid, hdate, hcnt]

/-- Witness for C3: with a stored row of 2 tickets, observing 3 tickets is
new. -/
theorem prior_state_policy_iff_ticket_increase_witness :
    is_really_new_appointment tableParseDate 4 dbPrior aptMore = true :=
  ((prior_state_policy_iff_ticket_increase tableParseDate 4 dbPrior aptMore
    (scheduleRowOf aptW) rfl).1).mpr
    (show (2 : Int) < 3 by norm_num)

/-! ## Claim C10 -/

/-- Claim C10: a candidate with `ticket_count = 0` — as every synthetic
closest-slot candidate is — is classified not-new by the per-user policy,
both without a prior row and with any prior row of non-negative count. -/
theorem closest_slot_candidate_never_new (parse_date : String → Option Int)
    (today : Int) (db : Db) (apt : Appointment) (info : DoctorInfo)
    (ct : String) (h0 : apt.count_tickets = 0)
    (h1 : ∀ row, get_last_schedule_state db apt.id apt.date = some row →
      0 ≤ row.count_tickets) :
    is_really_new_appointment parse_date today db apt = false ∧
    (closestAppointment info ct).count_tickets = 0 := by
  refine ⟨?_, rfl⟩
  cases hgl : get_last_schedule_state db apt.id apt.date with
  | none =>
      simp only [is_really_new_appointment, hgl]
      cases parse_date apt.date with
      | none => simp [h0]
      | some d => simp [h0]
  | some row =>
      have hrow := h1 row hgl
      simp only [is_really_new_appointment, hgl]
      rw [if_neg (by omega), if_neg fun hh => absurd hh.1 (by omega)]

/-- Witness for C10: the synthetic closest-slot candidate of `doctorCE` is
not-new on an empty database. -/
theorem closest_slot_candidate_never_new_witness :
    is_really_new_appointment tableParseDate 4 emptyDb
      (closestAppointment infoCE "9T09:30+03:00") = false :=
  (closest_slot_candidate_never_new tableParseDate 4 emptyDb
    (closestAppointment infoCE "9T09:30+03:00") infoCE "9T09:30+03:00" rfl
    (fun row hh => by simp [get_last_schedule_state, emptyDb] at hh)).1

/-! ## Claim C6 -/

/-- Claim C6: a candidate dated strictly beyond `today + filter_period_days`
is dropped before any evaluation or state write (the checking state is
returned untouched), while one dated exactly `today + filter_period_days` is
classified and persisted normally. -/
theorem filter_period_prefilter_boundary (parse_date : String → Option Int)
    (today fpd : Int) (st : CheckState) (apt : Appointment) :
    (∀ d, parse_date apt.date = some d → today + fpd < d →
      processUserAppointment parse_date today (today + fpd) st apt = st) ∧
    (parse_date apt.date = some (today + fpd) →
      processUserAppointment parse_date today (today + fpd) st apt =
        { new_appointments :=
            st.new_appointments ++
              (if is_really_new_appointment parse_date today st.db apt
               then [apt] else [])
          db := save_user_appointment_state st.db apt }) := by
  constructor
  · intro d hd hlt
    simp only [processUserAppointment, hd]
    rw [if_pos hlt]
  · intro hd
    simp only [processUserAppointment, hd]
    rw [if_neg (lt_irrefl (today + fpd))]

/-! ## Claim C8 -/

/-- Claim C8: for a candidate surviving the date pre-filter, the check appends
exactly one `schedule_state` row for it and upserts its doctor record
(refreshing `display_name` and `room`), independently of the new/unchanged
verdict. -/
theorem state_persisted_regardless_of_verdict
    (parse_date : String → Option Int) (today max_date : Int)
    (st : CheckState) (apt : Appointment) (d : Int)
    (h1 : parse_date apt.date = some d) (h2 : d ≤ max_date) :
    (processUserAppointment parse_date today max_date st apt).db.schedule_state
      = st.db.schedule_state ++ [scheduleRowOf apt] ∧
    ∃ row,
      (processUserAppointment parse_date today max_date st apt).db.doctors
        apt.id = some row ∧
      row.display_name = apt.display_name ∧ row.room = apt.room := by
  simp only [processUserAppointment, h1]
  rw [if_neg (not_lt.mpr h2)]
  constructor
  · simp [save_user_appointment_state, save_schedule_state, save_doctor]
  · cases hold : st.db.doctors apt.id with
    | none =>
        refine ⟨doctorRowOf apt, ?_, rfl, rfl⟩
        simp [save_user_appointment_state, save_schedule_state, save_doctor,
          hold]
    | some old =>
        refine ⟨{ old with display_name := apt.display_name, room := apt.room },
          ?_, rfl, rfl⟩
        simp [save_user_appointment_state, save_schedule_state, save_doctor,
          hold]

/-- Witness for C8: processing `aptW` on an empty database appends its state
row. -/
theorem state_persisted_regardless_of_verdict_witness :
    (processUserAppointment tableParseDate 4 34
      { new_appointments := [], db := emptyDb } aptW).db.schedule_state
    = [scheduleRowOf aptW] := by
  have h := state_persisted_regardless_of_verdict tableParseDate 4 34
    { new_appointments := [], db := emptyDb } aptW 5 rfl (by norm_num)
  rw [h.1]
  rfl

/-! ## Claim C5 -/

/-- Claim C5: a candidate classified new is dispatched only when no matching
`NotificationRecord` lies within the last 24 hours; a failed send leaves the
notification table (indeed the whole database) unchanged, so the opportunity
can be re-notified later; a successful send appends exactly one record, after
which a repeat detection within the next 24 hours is suppressed by the
gate. -/
theorem notification_gate_dispatch_and_record (send_ok : Appointment → Bool)
    (now user_id : Int) (db : Db) (sent : List Appointment)
    (apt : Appointment) :
    (was_notified db now user_id apt.id apt.date "new_appointment" 24 = true →
      notify_appointment send_ok now user_id (db, sent) apt = (db, sent)) ∧
    (was_notified db now user_id apt.id apt.date "new_appointment" 24 = false →
      send_ok apt = false →
      notify_appointment send_ok now user_id (db, sent) apt = (db, sent)) ∧
    (was_notified db now user_id apt.id apt.date "new_appointment" 24 = false →
      send_ok apt = true →
      notify_appointment send_ok now user_id (db, sent) apt =
        (add_notification db now user_id apt.id apt.date "new_appointment",
          sent ++ [apt]) ∧
      ∀ now2, now2 < now + 24 * 60 →
        was_notified
          (add_notification db now user_id apt.id apt.date "new_appointment")
          now2 user_id apt.id apt.date "new_appointment" 24 = true) := by
  refine ⟨fun hw => ?_, fun hw hs => ?_, fun hw hs => ⟨?_, fun now2 h2 => ?_⟩⟩
  · simp [notify_appointment, hw]
  · simp [notify_appointment, hw, hs]
  · simp [notify_appointment, hw, hs]
  · simp [was_notified, add_notification]
    omega

/-! ## Claim C7 -/

/-- Claim C7: the due-user query returns exactly the stored users that are
active, notification-enabled, fully credentialed, and whose
`last_check_time` is NULL or at least `check_interval_minutes` old; with
interval 5, a user checked 6 minutes ago is due and one checked 3 minutes ago
is not. -/
theorem get_users_to_check_characterization :
    (∀ (now : Int) (users : List UserRow) (u : UserRow),
      u ∈ get_users_to_check now users ↔
        u ∈ users ∧ u.is_active = true ∧ u.is_notifications_enabled = true ∧
        u.patient_number.isSome = true ∧ u.patient_birthday.isSome = true ∧
        (u.last_check_time = none ∨
          ∃ t, u.last_check_time = some t ∧
            t + u.check_interval_minutes ≤ now)) ∧
    get_users_to_check 1000 [userChecked6Ago, userChecked3Ago] =
      [userChecked6Ago] := by
  constructor
  · intro now users u
    rcases hl : u.last_check_time with _ | t <;>
      simp [get_users_to_check, List.mem_filter, dueUser, hl, and_assoc]
  · rfl

/-! ## Claim C9 -/

/-- Claim C9: for a doctor carrying a closest-slot marker with a non-empty
begin time, the extractor appends exactly one synthetic candidate — with the
marker's calendar date, `ticket_count = 0`, the closest-available busy-type
label and the time-of-day parsed from the timestamp — when no already-emitted
candidate carries the doctor's id with that date, and appends nothing when
one does. -/
theorem closest_slot_synthetic_candidate (info : DoctorInfo)
    (doctor : DoctorData) (acc : List Appointment) (ce : ClosestEntry)
    (h1 : doctor.closestEntry = some ce) (h2 : ce.beginTime ≠ "") :
    ((emit_schedule info doctor acc).any
        (fun apt => apt.date == (pySplit 'T' ce.beginTime).headD "" &&
          apt.id == info.id) = false →
      emit_doctor info doctor acc =
        emit_schedule info doctor acc ++
          [closestAppointment info ce.beginTime]) ∧
    ((emit_schedule info doctor acc).any
        (fun apt => apt.date == (pySplit 'T' ce.beginTime).headD "" &&
          apt.id == info.id) = true →
      emit_doctor info doctor acc = emit_schedule info doctor acc) ∧
    (closestAppointment info ce.beginTime).count_tickets = 0 ∧
    (closestAppointment info ce.beginTime).doc_busy_type =
      closestBusyTypeLabel ∧
    (closestAppointment info ce.beginTime).date =
      (pySplit 'T' ce.beginTime).headD "" ∧
    (closestAppointment info ce.beginTime).time_from =
      (if pyContains ce.beginTime 'T' then
        (pySplit '+' ((pySplit 'T' ce.beginTime).getD 1 "")).headD ""
      else "") := by
  refine ⟨fun hany => ?_, fun hany => ?_, rfl, rfl, rfl, rfl⟩
  · have hcond : ¬(((emit_schedule info doctor acc).any
        (fun apt => apt.date == (pySplit 'T' ce.beginTime).headD "" &&
          apt.id == info.id)) = true) := by rw [hany]; exact Bool.false_ne_true
    simp only [emit_doctor, h1, parse_closest_entry]
    rw [if_pos h2, if_neg hcond]
  · simp only [emit_doctor, h1, parse_closest_entry]
    rw [if_pos h2, if_pos hany]

/-- Witness for C9: for `doctorCE`, whose day schedule emits nothing, the
synthetic closest-slot candidate is appended. -/
theorem closest_slot_synthetic_candidate_witness :
    emit_doctor infoCE doctorCE [] =
      emit_schedule infoCE doctorCE [] ++
        [closestAppointment infoCE ceW.beginTime] :=
  (closest_slot_synthetic_candidate infoCE doctorCE [] ceW rfl
    (by simp [ceW])).1 rfl

/-! ## Claim C1 -/

/-- Counterexample to C1 as stated: user 1 (interval 5, last checked at
time 0) is due at time 100; after a tick whose callback raises, its
`last_check_time` is still 0 — not advanced to 100 — and the user is due
again one minute later, at time 101. -/
theorem last_check_not_advanced_on_failed_callback :
    dueUser 100 schedUser = true ∧
    (check_loop_tick (fun _ => false) 100 [schedUser]).map
      (fun u => u.last_check_time) = [some 0] ∧
    get_users_to_check 101 (check_loop_tick (fun _ => false) 100 [schedUser]) =
      [schedUser] :=
  ⟨rfl, rfl, rfl⟩

/-- One scheduler-tick fold, written as a map over the stored users. -/
theorem tick_foldl_eq_map (cbOk : Int → Bool) (now : Int) :
    ∀ (ds us : List UserRow),
      ds.foldl
        (fun us u =>
          if cbOk u.user_id then update_last_check_time us u.user_id now
          else us)
        us
      = us.map (applyDueUpdates cbOk now ds) := by
  intro ds
  induction ds with
  | nil =>
      intro us
      rw [List.foldl_nil]
      exact ((List.map_congr_left fun w _ =>
        show applyDueUpdates cbOk now [] w = id w from by
          simp [applyDueUpdates]).trans (List.map_id us)).symm
  | cons d rest ih =>
      intro us
      rw [List.foldl_cons, ih]
      have hstep :
          (if cbOk d.user_id then update_last_check_time us d.user_id now
           else us)
          = us.map fun w =>
              if cbOk d.user_id && w.user_id == d.user_id then
                { w with last_check_time := some now }
              else w := by
        by_cases hc : cbOk d.user_id
        · simp [hc, update_last_check_time]
        · simp [hc]
      rw [hstep, List.map_map]
      refine List.map_congr_left fun w _ => ?_
      by_cases hc : cbOk d.user_id
      · by_cases hm : w.user_id == d.user_id
        · simp [applyDueUpdates, Function.comp, hc, hm, List.any_cons]
        · simp [applyDueUpdates, Function.comp, hc, hm, List.any_cons]
      · simp [applyDueUpdates, Function.comp, hc, List.any_cons]

/-- Claim C1 amended: a tick of the scheduler driver advances a due user's
`last_check_time` to now exactly when the check callback completed without an
exception; when the callback raises, `last_check_time` is left unchanged (so
the user is due again on the next one-minute tick instead of waiting a full
`check_interval_minutes`). -/
theorem last_check_advances_iff_callback_succeeds (cbOk : Int → Bool)
    (now : Int) (users : List UserRow)
    (h : users.Pairwise fun a b => a.user_id ≠ b.user_id) :
    check_loop_tick cbOk now users =
      users.map fun u =>
        if dueUser now u && cbOk u.user_id then
          { u with last_check_time := some now }
        else u := by
  have hsymm : Symmetric fun (a b : UserRow) => a.user_id ≠ b.user_id :=
    fun _ _ hxy => Ne.symm hxy
  have hdistinct : ∀ a ∈ users, ∀ b ∈ users, a.user_id = b.user_id → a = b := by
    intro a ha b hb hab
    by_contra hne
    exact List.Pairwise.forall hsymm h ha hb hne hab
  unfold check_loop_tick
  rw [tick_foldl_eq_map]
  refine List.map_congr_left fun u hu => ?_
  unfold applyDueUpdates
  have hc : ((get_users_to_check now users).any
      fun d => cbOk d.user_id && u.user_id == d.user_id)
      = (dueUser now u && cbOk u.user_id) := by
    cases hdc : dueUser now u && cbOk u.user_id with
    | true =>
        rw [Bool.and_eq_true] at hdc
        refine List.any_eq_true.mpr ⟨u, ?_, ?_⟩
        · exact List.mem_filter.mpr ⟨hu, hdc.1⟩
        · simp [hdc.2]
    | false =>
        refine List.any_eq_false.mpr fun d hd => ?_
        rcases List.mem_filter.mp hd with ⟨hdu, hdue⟩
        intro hcontra
        rw [Bool.and_eq_true, beq_iff_eq] at hcontra
        have hde : d = u := hdistinct d hdu u hu hcontra.2.symm
        subst hde
        rw [hdue, hcontra.1] at hdc
        exact absurd hdc (by simp)
  rw [hc]

/-- Witness for the amended C1: with a succeeding callback, the tick advances
user 1's `last_check_time` to 100. -/
theorem last_check_advances_iff_callback_succeeds_witness :
    check_loop_tick (fun _ => true) 100 [schedUser] =
      [{ schedUser with last_check_time := some 100 }] := by
  rw [last_check_advances_iff_callback_succeeds (fun _ => true) 100 [schedUser]
    (List.pairwise_singleton _ _)]
  rfl

/-! ## Claim C4 -/

/-- Folding the department loop equals folding the concatenated candidate
stream. -/
theorem foldl_processDepartment_eq (cfg : FilterConfig)
    (parse_date : String → Option Int) (today max_date : Int) :
    ∀ (all_data : List (Int × Option ApiResponse)) (st : CheckState),
      all_data.foldl (processDepartment cfg parse_date today max_date) st
        = (all_candidates cfg all_data).foldl
            (processUserAppointment parse_date today max_date) st := by
  intro all_data
  induction all_data with
  | nil => intro st; rfl
  | cons dept rest ih =>
      intro st
      rw [List.foldl_cons, ih]
      rcases dept with ⟨i, r⟩
      cases r with
      | none => simp [all_candidates, processDepartment]
      | some resp =>
          simp only [all_candidates, processDepartment, List.foldl_append]

/-- The per-candidate step, phrased through the date pre-filter. -/
theorem processUserAppointment_eq_core (parse_date : String → Option Int)
    (today max_date : Int) (st : CheckState) (apt : Appointment) :
    processUserAppointment parse_date today max_date st apt =
      if survivesFilter parse_date max_date apt then
        processCore parse_date today st apt
      else st := by
  cases hpd : parse_date apt.date with
  | none => simp [processUserAppointment, survivesFilter, hpd]
  | some d =>
      by_cases hle : d ≤ max_date
      · simp [processUserAppointment, survivesFilter, processCore, hpd, hle,
          not_lt.mpr hle]
      · simp [processUserAppointment, survivesFilter, processCore, hpd, hle,
          lt_of_not_le hle]

/-- Folding the per-candidate step equals folding the core step over the
pre-filtered candidates. -/
theorem foldl_eq_filtered (parse_date : String → Option Int)
    (today max_date : Int) :
    ∀ (cands : List Appointment) (st : CheckState),
      cands.foldl (processUserAppointment parse_date today max_date) st
        = (cands.filter (survivesFilter parse_date max_date)).foldl
            (processCore parse_date today) st := by
  intro cands
  induction cands with
  | nil => intro st; rfl
  | cons apt rest ih =>
      intro st
      rw [List.foldl_cons, processUserAppointment_eq_core]
      by_cases hs : survivesFilter parse_date max_date apt
      · rw [if_pos hs, List.filter_cons_of_pos hs, List.foldl_cons, ih]
      · rw [if_neg hs, List.filter_cons_of_neg hs, ih]

/-- The most recent stored row after one state write: the written row for its
own key, the previous answer for every other key. -/
theorem get_last_after_save (db : Db) (a : Appointment) (i d : String) :
    get_last_schedule_state (save_user_appointment_state db a) i d =
      if a.id = i ∧ a.date = d then some (scheduleRowOf a)
      else get_last_schedule_state db i d := by
  unfold get_last_schedule_state save_user_appointment_state
    save_schedule_state save_doctor
  simp only [List.filter_append]
  by_cases hc : a.id = i ∧ a.date = d
  · rw [if_pos hc]
    have hf : List.filter
        (fun r => r.doctor_id == i && r.date == d) [scheduleRowOf a]
        = [scheduleRowOf a] := by
      simp [scheduleRowOf, hc.1, hc.2]
    rw [hf, List.getLast?_concat]
  · rw [if_neg hc]
    have hf : List.filter
        (fun r => r.doctor_id == i && r.date == d) [scheduleRowOf a]
        = [] := by
      rcases not_and_or.mp hc with hne | hne <;> simp [scheduleRowOf, hne]
    rw [hf, List.append_nil]

/-- Under the key invariant the per-user policy reports not-new. -/
theorem is_new_false_of_keyinv (parse_date : String → Option Int)
    (today : Int) (db : Db) (c : Appointment) (h : KeyInvFor db c) :
    is_really_new_appointment parse_date today db c = false := by
  obtain ⟨row, hrow, hcnt⟩ := h
  simp only [is_really_new_appointment, hrow]
  rw [if_neg (by omega), if_neg fun hh => by omega]

/-- One core step for a count-agreeing candidate preserves the key
invariant. -/
theorem keyinv_save (db : Db) (a c : Appointment)
    (hagree : a.id = c.id → a.date = c.date →
      a.count_tickets = c.count_tickets)
    (h : KeyInvFor db c) :
    KeyInvFor (save_user_appointment_state db a) c := by
  obtain ⟨row, hrow, hcnt⟩ := h
  rw [KeyInvFor, get_last_after_save]
  by_cases hk : a.id = c.id ∧ a.date = c.date
  · rw [if_pos hk]
    exact ⟨scheduleRowOf a, rfl, hagree hk.1 hk.2⟩
  · rw [if_neg hk]
    exact ⟨row, hrow, hcnt⟩

/-- A fold of core steps over count-agreeing candidates preserves the key
invariant. -/
theorem keyinv_fold_preserve (parse_date : String → Option Int) (today : Int)
    (c : Appointment) :
    ∀ (ds : List Appointment) (st : CheckState),
      (∀ a ∈ ds, a.id = c.id → a.date = c.date →
        a.count_tickets = c.count_tickets) →
      KeyInvFor st.db c →
      KeyInvFor (ds.foldl (processCore parse_date today) st).db c := by
  intro ds
  induction ds with
  | nil => intro st _ h; exact h
  | cons a rest ih =>
      intro st hagree h
      rw [List.foldl_cons]
      refine ih _ (fun x hx => hagree x (List.mem_cons_of_mem _ hx)) ?_
      exact keyinv_save st.db a c (hagree a (List.mem_cons_self _ _)) h

/-- After a fold of core steps that contains a candidate among
count-agreeing candidates, the key invariant holds for it. -/
theorem keyinv_after_run (parse_date : String → Option Int) (today : Int)
    (c : Appointment) :
    ∀ (ds : List Appointment) (st : CheckState), c ∈ ds →
      (∀ a ∈ ds, a.id = c.id → a.date = c.date →
        a.count_tickets = c.count_tickets) →
      KeyInvFor (ds.foldl (processCore parse_date today) st).db c := by
  intro ds
  induction ds with
  | nil => intro st hc; exact absurd hc (List.not_mem_nil c)
  | cons a rest ih =>
      intro st hc hagree
      rw [List.foldl_cons]
      by_cases hcr : c ∈ rest
      · exact ih _ hcr fun x hx => hagree x (List.mem_cons_of_mem _ hx)
      · have hca : c = a := by
          rcases List.mem_cons.mp hc with h | h
          · exact h
          · exact absurd h hcr
        subst hca
        refine keyinv_fold_preserve parse_date today c rest _
          (fun x hx => hagree x (List.mem_cons_of_mem _ hx)) ?_
        show KeyInvFor (save_user_appointment_state st.db c) c
        rw [KeyInvFor, get_last_after_save, if_pos ⟨rfl, rfl⟩]
        exact ⟨scheduleRowOf c, rfl, rfl⟩

/-- A fold of core steps starting with the key invariant for all its
count-agreeing candidates appends no new appointment. -/
theorem no_new_of_keyinv (parse_date : String → Option Int) (today : Int) :
    ∀ (ds : List Appointment) (st : CheckState),
      (∀ c ∈ ds, KeyInvFor st.db c) →
      (∀ a ∈ ds, ∀ c ∈ ds, a.id = c.id → a.date = c.date →
        a.count_tickets = c.count_tickets) →
      (ds.foldl (processCore parse_date today) st).new_appointments =
        st.new_appointments := by
  intro ds
  induction ds with
  | nil => intro st _ _; rfl
  | cons a rest ih =>
      intro st hinv hagree
      rw [List.foldl_cons]
      have hnew : is_really_new_appointment parse_date today st.db a = false :=
        is_new_false_of_keyinv parse_date today st.db a
          (hinv a (List.mem_cons_self _ _))
      have hstep : (processCore parse_date today st a).new_appointments
          = st.new_appointments := by
        simp [processCore, hnew]
      rw [ih (processCore parse_date today st a) ?_ ?_, hstep]
      · intro c hc
        exact keyinv_save st.db a c
          (hagree a (List.mem_cons_self _ _) c (List.mem_cons_of_mem _ hc))
          (hinv c (List.mem_cons_of_mem _ hc))
      · intro x hx c hc
        exact hagree x (List.mem_cons_of_mem _ hx) c (List.mem_cons_of_mem _ hc)

/-- Claim C4 amended: running the per-user check twice on an identical
upstream document, with the first run's state persisted, yields no new
appointment on the second run — provided any two candidates the document
yields for the same `(doctor_id, date)` carry the same ticket count (in
particular whenever each such key occurs at most once, the typical shape).
Without that proviso the claim fails, see the counterexample. -/
theorem second_run_yields_no_new_appointments (cfg : FilterConfig)
    (parse_date : String → Option Int) (today fpd : Int) (db : Db)
    (all_data : List (Int × Option ApiResponse))
    (H : ∀ a ∈ all_candidates cfg all_data, ∀ c ∈ all_candidates cfg all_data,
      a.id = c.id → a.date = c.date → a.count_tickets = c.count_tickets) :
    (check_user_appointments cfg parse_date today
      (check_user_appointments cfg parse_date today db fpd all_data).db fpd
      all_data).new_appointments = [] := by
  have hrw : ∀ db0 : Db,
      check_user_appointments cfg parse_date today db0 fpd all_data
        = ((all_candidates cfg all_data).filter
            (survivesFilter parse_date (today + fpd))).foldl
            (processCore parse_date today)
            { new_appointments := [], db := db0 } := by
    intro db0
    unfold check_user_appointments
    rw [foldl_processDepartment_eq, foldl_eq_filtered]
  have Hfs : ∀ a ∈ (all_candidates cfg all_data).filter
        (survivesFilter parse_date (today + fpd)),
      ∀ c ∈ (all_candidates cfg all_data).filter
        (survivesFilter parse_date (today + fpd)),
      a.id = c.id → a.date = c.date → a.count_tickets = c.count_tickets :=
    fun a ha c hc => H a (List.mem_of_mem_filter ha) c
      (List.mem_of_mem_filter hc)
  rw [hrw, hrw]
  refine no_new_of_keyinv parse_date today _ _ (fun c hc => ?_) Hfs
  exact keyinv_after_run parse_date today c _
    { new_appointments := [], db := db } hc fun a ha => Hfs a ha c hc

/-- Counterexample to C4 as stated: the document `dupResponse` lists the same
`(doctor, day)` twice (3 tickets, then 5); the second identical run still
reports the 5-ticket candidate as new, because each run's own interleaved
writes make the 5-over-3 increase reappear. -/
theorem second_run_new_on_duplicate_key_document :
    dupSecondRun.new_appointments.map
      (fun a => (a.id, a.date, a.count_tickets)) = [("D1", "5", 5)] := rfl

/-- Witness for the amended C4: on the duplicate-free document `okAllData`
the second run yields nothing new. -/
theorem second_run_yields_no_new_appointments_witness :
    (check_user_appointments emptyFilterConfig tableParseDate 4
      okFirstRun.db 30 okAllData).new_appointments = [] :=
  second_run_yields_no_new_appointments emptyFilterConfig tableParseDate 4 30
    emptyDb okAllData (of_decide_eq_true rfl)
